import Mathlib

/-!
Shallow embedding of the meeting-brief pipeline
(`backend/app/agents/{orchestrator,context_gatherer,insight_extractor,brief_generator}.py`
and `backend/app/models/brief.py`).

Modelling conventions:
* Python `Dict[str, Any]` records whose accessed values are strings are
  modelled as association lists `Dict := List (String × String)`; a missing
  key models both an absent key and a `None` value (both make `dict.get`
  return the default / `None`).
* Python `datetime` values are carried as opaque `String` timestamps; float
  scores are modelled as `ℚ` (no arithmetic is performed on them by the
  embedded code paths except the dead `time.time()` subtraction).
* Exceptions are modelled with `Except Err`; every external call (source
  fetch, structured-generation chain) is an oracle parameter returning
  `Except Err _`, so one embedding covers every behaviour of the
  collaborators.
* Python `set` objects used only through `in`/`add` are modelled as
  `List String` with cons-insertion and list membership.
-/

/-- Python `Dict[str, Any]` restricted to the string-valued views the code reads. -/
abbrev Dict := List (String × String)

/-- `d.get(k)` — `none` when the key is absent. -/
def dictGet (d : Dict) (k : String) : Option String :=
  (d.find? (fun kv => kv.1 == k)).map Prod.snd

/-- `d.get(k, dflt)`. -/
def dictGetD (d : Dict) (k dflt : String) : String :=
  (dictGet d k).getD dflt

/-- Python `x or dflt` on an optional string: `None` and `""` are falsy. -/
def pyOr (x : Option String) (dflt : String) : String :=
  match x with
  | none => dflt
  | some s => if s = "" then dflt else s

/-- An exception value, carrying its message. -/
abbrev Err := String

/-- `models/brief.py` `ActionItem`. `due_date` is an opaque timestamp string. -/
structure ActionItem where
  description : String
  assignee : Option String
  due_date : Option String
  status : String
  source : Option String
deriving Repr, DecidableEq

/-- `models/brief.py` `TalkingPoint`. -/
structure TalkingPoint where
  topic : String
  context : String
  priority : String
  source : Option String
deriving Repr, DecidableEq

/-- `models/brief.py` `RiskOpportunity`. -/
structure RiskOpportunity where
  type : String
  title : String
  description : String
  severity : String
  recommended_action : Option String
deriving Repr, DecidableEq

/-- `insight_extractor.py` `ExtractedInsight`. -/
structure ExtractedInsight where
  type : String
  content : String
  source : String
  source_date : Option String
  participants : List String
  priority : String
  status : String
  confidence : ℚ
deriving Repr, DecidableEq

/-- `insight_extractor.py` `InsightExtractionResult`. -/
structure InsightExtractionResult where
  action_items : List ExtractedInsight
  commitments : List ExtractedInsight
  decisions : List ExtractedInsight
  concerns : List ExtractedInsight
  opportunities : List ExtractedInsight
  key_topics : List String
  sentiment_summary : String
  relationship_health : String
deriving Repr, DecidableEq

/-- A calendar-event record, as the fields the code reads off the raw dict:
`get("summary","")`, `get("description","")`, `get("start",{}).get("dateTime")`,
and the attendees' `get("email")` values (`none` models a missing email). -/
structure CalendarEvent where
  summary : String
  description : String
  start_dateTime : Option String
  attendees : List (Option String)
deriving Repr, DecidableEq

/-- `gather_crm_context`'s accumulator dict `{"contacts": [], "deals": [], "accounts": []}`. -/
structure CrmData where
  contacts : List Dict
  deals : List Dict
  accounts : List Dict
deriving Repr, DecidableEq

/-- `context_gatherer.py` `GatheredContext` (pydantic model). -/
structure GatheredContext where
  email_threads : List Dict
  calendar_events : List CalendarEvent
  crm_data : CrmData
  past_interactions : List Dict
  participant_profiles : List Dict
  data_quality_score : ℚ
  sources_accessed : List String
deriving Repr, DecidableEq

/-- `brief_generator.py` `GeneratedBrief` — the draft brief, pre-merge. -/
structure GeneratedBrief where
  meeting_objective : String
  executive_summary : String
  participant_profiles : List Dict
  relationship_timeline : List Dict
  open_action_items : List Dict
  talking_points : List Dict
  risks_opportunities : List Dict
  email_summary : Option String
  previous_meetings_summary : Option String
deriving Repr, DecidableEq

/-- `models/brief.py` `ParticipantProfile`. Under the string-valued record
model the list-valued fields `recent_interactions`/`key_topics` can only be
absent from an input record, so they take their pydantic `default_factory`
value `[]`. -/
structure ParticipantProfile where
  email : String
  name : Option String
  title : Option String
  company : Option String
  linkedin_url : Option String
  recent_interactions : List String
  key_topics : List String
  sentiment : Option String
deriving Repr, DecidableEq

/-- `ParticipantProfile(**p)` (orchestrator.py line 99): pydantic validation.
`email` is the one required field, so a profile record without it raises a
`ValidationError`; the optional fields default to `None` when absent, the
list fields to `[]`. -/
def participantProfileOfDict (p : Dict) : Except Err ParticipantProfile :=
  match dictGet p "email" with
  | none => .error "ValidationError: email field required"
  | some email =>
    .ok { email := email
          name := dictGet p "name"
          title := dictGet p "title"
          company := dictGet p "company"
          linkedin_url := dictGet p "linkedin_url"
          recent_interactions := []
          key_topics := []
          sentiment := dictGet p "sentiment" }

/-- The comprehension `[ParticipantProfile(**p) for p in generated.participant_profiles]`
(orchestrator.py lines 98-100): validates the records in order, raising at the
first invalid one. -/
def validateParticipantProfiles : List Dict → Except Err (List ParticipantProfile)
  | [] => .ok []
  | p :: rest =>
    match participantProfileOfDict p with
    | .error e => .error e
    | .ok profile =>
      match validateParticipantProfiles rest with
      | .error e => .error e
      | .ok profiles => .ok (profile :: profiles)

/-- `models/brief.py` `Brief`. `relationship_timeline` entries are
pass-through records. `generated_at` is an opaque timestamp.
Note: the model has no `generation_time_seconds` / `data_sources_used` field
(those exist only on `BriefResponse` / the DB row). -/
structure Brief where
  id : String
  meeting_id : String
  title : String
  meeting_objective : Option String
  executive_summary : String
  participant_profiles : List ParticipantProfile
  relationship_timeline : List Dict
  open_action_items : List ActionItem
  talking_points : List TalkingPoint
  risks_opportunities : List RiskOpportunity
  email_context : Option String
  crm_context : Option String
  previous_meetings_summary : Option String
  generated_at : String
deriving Repr, DecidableEq

/-! ### The three merge procedures of `orchestrator.py` (BriefAssembler) -/

/-- The dedup key of `_merge_action_items`: `description[:50].lower()`. -/
def actionKey (s : String) : String := (s.take 50).toLower

/-- The `ActionItem(...)` built from a draft item dict in `_merge_action_items`. -/
def draftActionItem (item : Dict) : ActionItem :=
  { description := dictGetD item "description" ""
    assignee := dictGet item "assignee"
    due_date := dictGet item "due_date"
    status := dictGetD item "status" "open"
    source := dictGet item "source" }

/-- The `ActionItem(...)` built from an extracted insight in `_merge_action_items`. -/
def insightActionItem (insight : ExtractedInsight) : ActionItem :=
  { description := insight.content
    assignee := insight.participants.head?
    due_date := none
    status := insight.status
    source := some insight.source }

/-- One iteration of the first loop of `_merge_action_items`. -/
def draftStep (st : List ActionItem × List String) (item : Dict) :
    List ActionItem × List String :=
  let key := actionKey (dictGetD item "description" "")
  if key ∈ st.2 then st else (st.1 ++ [draftActionItem item], key :: st.2)

/-- One iteration of the second loop of `_merge_action_items`. -/
def insightStep (st : List ActionItem × List String) (insight : ExtractedInsight) :
    List ActionItem × List String :=
  let key := actionKey insight.content
  if key ∈ st.2 then st else (st.1 ++ [insightActionItem insight], key :: st.2)

/-- `orchestrator.py` `_merge_action_items`. -/
def _merge_action_items (brief_items : List Dict)
    (insight_items : List ExtractedInsight) : List ActionItem :=
  let s1 := brief_items.foldl draftStep ([], [])
  let s2 := insight_items.foldl insightStep s1
  s2.1.take 10

/-- The `TalkingPoint(...)` built from a draft point dict in `_enhance_talking_points`. -/
def dictToTalkingPoint (point : Dict) : TalkingPoint :=
  { topic := dictGetD point "topic" ""
    context := dictGetD point "context" ""
    priority := dictGetD point "priority" "medium"
    source := dictGet point "source" }

/-- The `TalkingPoint(...)` built from a concern insight in `_enhance_talking_points`. -/
def concernTalkingPoint (concern : ExtractedInsight) : TalkingPoint :=
  { topic := "Address concern: " ++ concern.content.take 50
    context := concern.content
    priority := "high"
    source := some concern.source }

/-- The `TalkingPoint(...)` built from an opportunity insight in `_enhance_talking_points`. -/
def oppTalkingPoint (opp : ExtractedInsight) : TalkingPoint :=
  { topic := "Explore opportunity: " ++ opp.content.take 50
    context := opp.content
    priority := "medium"
    source := some opp.source }

/-- `orchestrator.py` `_enhance_talking_points`. -/
def _enhance_talking_points (points : List Dict)
    (insights : InsightExtractionResult) : List TalkingPoint :=
  let enhanced := points.foldl (fun acc point => acc ++ [dictToTalkingPoint point]) []
  let enhanced := (insights.concerns.take 3).foldl
    (fun acc concern => acc ++ [concernTalkingPoint concern]) enhanced
  let enhanced := (insights.opportunities.take 2).foldl
    (fun acc opp => acc ++ [oppTalkingPoint opp]) enhanced
  enhanced.take 8

/-- The `RiskOpportunity(...)` built from a draft entry in `_merge_risks_opportunities`. -/
def dictToRiskOpportunity (item : Dict) : RiskOpportunity :=
  { type := dictGetD item "type" "risk"
    title := dictGetD item "title" ""
    description := dictGetD item "description" ""
    severity := dictGetD item "severity" "medium"
    recommended_action := dictGet item "recommended_action" }

/-- The risk record built from a concern insight in `_merge_risks_opportunities`. -/
def concernRisk (concern : ExtractedInsight) : RiskOpportunity :=
  { type := "risk"
    title := concern.content.take 50
    description := concern.content
    severity := concern.priority
    recommended_action := none }

/-- The opportunity record built from an opportunity insight in `_merge_risks_opportunities`. -/
def oppOpportunity (opp : ExtractedInsight) : RiskOpportunity :=
  { type := "opportunity"
    title := opp.content.take 50
    description := opp.content
    severity := opp.priority
    recommended_action := none }

/-- `orchestrator.py` `_merge_risks_opportunities`. -/
def _merge_risks_opportunities (existing : List Dict)
    (concerns opportunities : List ExtractedInsight) : List RiskOpportunity :=
  let items := existing.foldl (fun acc item => acc ++ [dictToRiskOpportunity item]) []
  let items := concerns.foldl (fun acc concern => acc ++ [concernRisk concern]) items
  let items := opportunities.foldl (fun acc opp => acc ++ [oppOpportunity opp]) items
  items.take 6

/-- `orchestrator.py` `_format_crm_context`. -/
def _format_crm_context (crm_data : CrmData) : Option String :=
  if crm_data.contacts.isEmpty then none
  else
    let parts :=
      (crm_data.contacts.take 3).map (fun contact =>
        "- " ++ dictGetD contact "name" "Unknown" ++ ": " ++
        dictGetD contact "title" "N/A" ++ " at " ++ dictGetD contact "company" "N/A") ++
      ((crm_data.deals.take 3).map (fun deal =>
        "- Deal: " ++ dictGetD deal "name" "Unknown" ++ " - Stage: " ++
        dictGetD deal "stage" "N/A" ++ ", Value: " ++ dictGetD deal "value" "N/A"))
    if parts.isEmpty then none else some (String.intercalate "\n" parts)

/-! ### The spec's reference algorithm for the action-item merge (§4.4 item 1).
These definitions follow the words of the specification, to be compared with
the source-derived `_merge_action_items`. -/

/-- Modelled from the spec: walk the draft items in order, inserting each item
whose key is unseen and recording that key (returns the inserted items and the
final seen-key set). -/
def specDraftWalk : List Dict → List String → List ActionItem × List String
  | [], seen => ([], seen)
  | item :: rest, seen =>
    let key := actionKey (dictGetD item "description" "")
    if key ∈ seen then specDraftWalk rest seen
    else
      (draftActionItem item :: (specDraftWalk rest (key :: seen)).1,
       (specDraftWalk rest (key :: seen)).2)

/-- Modelled from the spec: walk the extracted insight action items in order,
appending a synthesized `ActionItem` for each unseen key. -/
def specInsightWalk : List ExtractedInsight → List String → List ActionItem
  | [], _ => []
  | insight :: rest, seen =>
    let key := actionKey insight.content
    if key ∈ seen then specInsightWalk rest seen
    else insightActionItem insight :: specInsightWalk rest (key :: seen)

/-- Modelled from the spec: the reference action-item merge — draft walk, then
insight walk over the same seen set, then keep only the first 10 items. -/
def specMergeActionItems (draft : List Dict) (ins : List ExtractedInsight) :
    List ActionItem :=
  ((specDraftWalk draft []).1 ++ specInsightWalk ins (specDraftWalk draft []).2).take 10

/-- The dedup key of a talking point as the spec's glossary defines it: the
normalized (case-folded, length-capped to 50) prefix of the topic. -/
def specTalkingKey (s : String) : String := (s.take 50).toLower

/-! ### `context_gatherer.py` — ContextGathererAgent -/

/-- Which MCP integrations are present and enabled
(`"email" in self.mcp and self.mcp["email"].get("enabled")`, etc.). -/
structure McpConfig where
  emailEnabled : Bool
  calendarEnabled : Bool
  crmEnabled : Bool
deriving Repr, DecidableEq

/-- The external source-fetch clients, as oracles. Each call may raise. -/
structure SourceOracles where
  searchEmails : String → String → Except Err (List Dict)
  listEvents : String → String → Except Err (List CalendarEvent)
  getContactByEmail : String → Except Err (Option Dict)
  getContactDeals : String → Except Err (List Dict)
  getAccount : String → Except Err (Option Dict)

/-- The per-participant loop of `gather_email_context`: the `try` block wraps
the whole loop, so on the first failing `search_emails` call the threads
accumulated so far are kept and returned. -/
def emailLoop (O : SourceOracles) (since : String) :
    List String → List Dict → List Dict
  | [], acc => acc
  | p :: rest, acc =>
    match O.searchEmails ("from:" ++ p ++ " OR to:" ++ p) since with
    | .error _ => acc
    | .ok threads => emailLoop O since rest (acc ++ threads)

/-- `context_gatherer.py` `gather_email_context`. -/
def gather_email_context (enabled : Bool) (O : SourceOracles) (since : String)
    (participants : List String) : List Dict :=
  if enabled then emailLoop O since participants [] else []

/-- The lowercased attendee emails of an event
(`[a.get("email", "").lower() for a in event.get("attendees", [])]`). -/
def attendeeEmails (ev : CalendarEvent) : List String :=
  ev.attendees.map (fun a => (a.getD "").toLower)

/-- `context_gatherer.py` `gather_calendar_context`: one `list_events` call,
then keep events whose attendee emails intersect the participants
(case-insensitively); a raised fetch error yields the empty list. -/
def gather_calendar_context (enabled : Bool) (O : SourceOracles)
    (timeMin timeMax : String) (participants : List String) : List CalendarEvent :=
  if enabled then
    match O.listEvents timeMin timeMax with
    | .error _ => []
    | .ok evs =>
      evs.filter (fun ev => participants.any (fun p => (attendeeEmails ev).contains p.toLower))
  else []

/-- The per-participant loop of `gather_crm_context`. The `try` wraps the whole
loop, so any raised error (including the `contact["id"]` KeyError when the
contact record has no id) stops the loop and keeps the partial accumulator.
Python truthiness: an empty contact dict, an empty `account_id` string and an
empty account dict are all falsy. -/
def crmLoop (O : SourceOracles) : List String → CrmData → CrmData
  | [], acc => acc
  | p :: rest, acc =>
    match O.getContactByEmail p with
    | .error _ => acc
    | .ok none => crmLoop O rest acc
    | .ok (some contact) =>
      if contact.isEmpty then crmLoop O rest acc
      else
        let acc1 : CrmData := { acc with contacts := acc.contacts ++ [contact] }
        match dictGet contact "id" with
        | none => acc1
        | some cid =>
          match O.getContactDeals cid with
          | .error _ => acc1
          | .ok deals =>
            let acc2 : CrmData := { acc1 with deals := acc1.deals ++ deals }
            match dictGet contact "account_id" with
            | none => crmLoop O rest acc2
            | some aid =>
              if aid = "" then crmLoop O rest acc2
              else
                match O.getAccount aid with
                | .error _ => acc2
                | .ok none => crmLoop O rest acc2
                | .ok (some account) =>
                  if account.isEmpty then crmLoop O rest acc2
                  else crmLoop O rest { acc2 with accounts := acc2.accounts ++ [account] }

/-- `context_gatherer.py` `gather_crm_context`. -/
def gather_crm_context (enabled : Bool) (O : SourceOracles)
    (participants : List String) : CrmData :=
  if enabled then crmLoop O participants ⟨[], [], []⟩ else ⟨[], [], []⟩

/-- The structured inputs `gather` feeds to its organizing LLM chain (the
serialized prompt values; an empty list stands for the
"No ... data available" placeholder string). -/
structure OrganizeInput where
  meeting_title : String
  meeting_date : String
  participants : List String
  meeting_description : String
  lookback_days : Nat
  email_data : List Dict
  calendar_data : List CalendarEvent
  crm_data : CrmData

/-- `context_gatherer.py` `ContextGathererAgent.gather`. The organizing chain
(`self.prompt | self.llm | self.parser`) is the `organize` oracle; the code
then overwrites `sources_accessed` on whatever the chain returned (both the
dict branch and the attribute-assignment branch do exactly that). A source is
recorded as accessed only when its fetched data is non-empty (for CRM: at
least one contact). -/
def ContextGathererAgent.gather (mcp : McpConfig) (O : SourceOracles)
    (organize : OrganizeInput → Except Err GatheredContext)
    (meeting_title meeting_date : String) (participants : List String)
    (meeting_description : Option String) (lookback_days : Nat)
    (include_email include_crm include_calendar : Bool)
    (sinceDate untilDate : String) : Except Err GatheredContext :=
  let email_data :=
    if include_email then gather_email_context mcp.emailEnabled O sinceDate participants
    else []
  let calendar_data :=
    if include_calendar then
      gather_calendar_context mcp.calendarEnabled O sinceDate untilDate participants
    else []
  let crm_data :=
    if include_crm then gather_crm_context mcp.crmEnabled O participants
    else ⟨[], [], []⟩
  let sources_accessed :=
    (if email_data.isEmpty then [] else ["email"]) ++
    (if calendar_data.isEmpty then [] else ["calendar"]) ++
    (if crm_data.contacts.isEmpty then [] else ["crm"])
  match organize
      { meeting_title := meeting_title
        meeting_date := meeting_date
        participants := participants
        meeting_description := pyOr meeting_description "No description provided"
        lookback_days := lookback_days
        email_data := email_data.take 20
        calendar_data := calendar_data.take 20
        crm_data := crm_data } with
  | .error e => .error e
  | .ok result => .ok { result with sources_accessed := sources_accessed }

/-! ### `insight_extractor.py` — InsightExtractorAgent -/

/-- The meeting-note dicts the orchestrator builds from calendar events
(`{"date": ..., "title": ..., "notes": ..., "attendees": [...]}`). -/
structure MeetingNote where
  date : Option String
  title : String
  notes : String
  attendees : List (Option String)
deriving Repr, DecidableEq

/-- The orchestrator's meeting-note comprehension over `context.calendar_events`. -/
def eventToNote (event : CalendarEvent) : MeetingNote :=
  { date := event.start_dateTime
    title := event.summary
    notes := event.description
    attendees := event.attendees }

/-- The per-thread interaction text built in `InsightExtractorAgent.extract`. -/
def emailInteractionText (thread : Dict) : String :=
  "Email (" ++ dictGetD thread "date" "Unknown" ++ "):\n" ++
  "From: " ++ dictGetD thread "from" "Unknown" ++ " To: " ++
  dictGetD thread "to" "Unknown" ++ "\n" ++
  "Subject: " ++ dictGetD thread "subject" "" ++ "\n" ++
  (dictGetD thread "body" "").take 800

/-- The per-note interaction text built in `InsightExtractorAgent.extract`.
The orchestrator always populates the `date`/`title`/`notes` keys, so the
`.get` defaults are never taken; a `None` date renders as `"None"` inside the
f-string. -/
def meetingInteractionText (note : MeetingNote) : String :=
  "Meeting (" ++ note.date.getD "None" ++ "):\n" ++
  "Title: " ++ note.title ++ "\n" ++
  note.notes.take 1000

/-- `insight_extractor.py` `InsightExtractorAgent.extract`. The extraction
chain is the `extractChain` oracle (interactions text, context text); a
malformed structured output is its `.error` case, which this function does not
catch. -/
def InsightExtractorAgent.extract
    (extractChain : String → String → Except Err InsightExtractionResult)
    (email_threads : List Dict) (meeting_notes : List MeetingNote)
    (context : Option String) : Except Err InsightExtractionResult :=
  let all_interactions :=
    (email_threads.take 15).map emailInteractionText ++
    (meeting_notes.take 10).map meetingInteractionText
  let interactions :=
    if all_interactions.isEmpty then "No interaction data available"
    else String.intercalate "\n\n---\n\n" all_interactions
  extractChain interactions (pyOr context "No additional context provided")

/-! ### `brief_generator.py` — BriefGeneratorAgent -/

/-- The structured inputs `BriefGeneratorAgent.generate` serializes into its
prompt (the bounded context view). -/
structure GenerateInput where
  meeting_title : String
  meeting_date : String
  meeting_description : String
  email_threads : List Dict
  calendar_events : List CalendarEvent
  crm_data : CrmData
  past_interactions : List Dict
  participant_profiles : List Dict
  data_quality_score : ℚ
  sources_accessed : List String

/-- `brief_generator.py` `BriefGeneratorAgent.generate`: builds the bounded
context view and invokes the synthesis chain (the `generateChain` oracle);
malformed output is its `.error` case, uncaught. -/
def BriefGeneratorAgent.generate
    (generateChain : GenerateInput → Except Err GeneratedBrief)
    (meeting_title meeting_date : String) (meeting_description : Option String)
    (context : GatheredContext) : Except Err GeneratedBrief :=
  generateChain
    { meeting_title := meeting_title
      meeting_date := meeting_date
      meeting_description := pyOr meeting_description "No description provided"
      email_threads := context.email_threads.take 10
      calendar_events := context.calendar_events.take 10
      crm_data := context.crm_data
      past_interactions := context.past_interactions.take 20
      participant_profiles := context.participant_profiles
      data_quality_score := context.data_quality_score
      sources_accessed := context.sources_accessed }

/-! ### `orchestrator.py` — BriefOrchestrator.generate_brief -/

/-- The ambient nondeterminism of one `generate_brief` run: the generated
uuid, the `datetime.utcnow()` readings (as the derived since/until window
strings and the `generated_at` stamp). The `time.time()` readings are separate
explicit arguments of `generate_brief`. -/
structure RunEnv where
  newId : String
  generatedAt : String
  sinceDate : String
  untilDate : String

/-- `orchestrator.py` `BriefOrchestrator.generate_brief`: gather → extract →
generate → the three merges → build the final `Brief`, whose construction
runs the `ParticipantProfile(**p)` pydantic validation over the synthesized
profile records and raises on the first invalid one. `startTime`/`endTime`
are the two `time.time()` readings; as in the source, `generation_time` and
`data_sources` are computed and then never used (the `Brief` constructor is
not passed them and has no such fields). -/
def BriefOrchestrator.generate_brief (mcp : McpConfig) (O : SourceOracles)
    (organize : OrganizeInput → Except Err GatheredContext)
    (extractChain : String → String → Except Err InsightExtractionResult)
    (generateChain : GenerateInput → Except Err GeneratedBrief)
    (env : RunEnv) (startTime endTime : ℚ)
    (meeting_id meeting_title meeting_date : String)
    (participants : List String) (meeting_description : Option String)
    (include_email include_crm include_calendar : Bool)
    (lookback_days : Nat) : Except Err Brief :=
  match ContextGathererAgent.gather mcp O organize meeting_title meeting_date
      participants meeting_description lookback_days
      include_email include_crm include_calendar env.sinceDate env.untilDate with
  | .error e => .error e
  | .ok context =>
    let data_sources := context.sources_accessed
    match InsightExtractorAgent.extract extractChain context.email_threads
        (context.calendar_events.map eventToNote)
        (some ("Preparing for meeting: " ++ meeting_title)) with
    | .error e => .error e
    | .ok insights =>
      match BriefGeneratorAgent.generate generateChain meeting_title meeting_date
          meeting_description context with
      | .error e => .error e
      | .ok generated =>
        let action_items := _merge_action_items generated.open_action_items
          insights.action_items
        let talking_points := _enhance_talking_points generated.talking_points insights
        let risks_opportunities := _merge_risks_opportunities
          generated.risks_opportunities insights.concerns insights.opportunities
        let generation_time := endTime - startTime
        let _ := data_sources
        let _ := generation_time
        match validateParticipantProfiles generated.participant_profiles with
        | .error e => .error e
        | .ok profiles =>
        .ok
          { id := env.newId
            meeting_id := meeting_id
            title := "Brief: " ++ meeting_title
            meeting_objective := some generated.meeting_objective
            executive_summary := generated.executive_summary
            participant_profiles := profiles
            relationship_timeline := generated.relationship_timeline
            open_action_items := action_items
            talking_points := talking_points
            risks_opportunities := risks_opportunities
            email_context := generated.email_summary
            crm_context := _format_crm_context context.crm_data
            previous_meetings_summary := generated.previous_meetings_summary
            generated_at := env.generatedAt }

/-! ### Concrete inputs used by counterexamples and witnesses -/

def cexThread : Dict := [("subject", "Pricing follow-up"), ("from", "alice@acme.com")]

def cexEvent : CalendarEvent :=
  { summary := "Weekly sync", description := "Notes from the weekly sync"
    start_dateTime := some "2026-01-03T10:00:00Z", attendees := [some "alice@acme.com"] }

def cexLLMContext : GatheredContext :=
  { email_threads := [cexThread], calendar_events := [cexEvent], crm_data := ⟨[], [], []⟩
    past_interactions := [], participant_profiles := []
    data_quality_score := 1/2, sources_accessed := [] }

def cexOracles : SourceOracles :=
  { searchEmails := fun _ _ => .ok [cexThread]
    listEvents := fun _ _ => .error "calendar fetch failed"
    getContactByEmail := fun _ => .ok none
    getContactDeals := fun _ => .ok []
    getAccount := fun _ => .ok none }

def cexGather : Except Err GatheredContext :=
  ContextGathererAgent.gather ⟨true, true, false⟩ cexOracles (fun _ => .ok cexLLMContext)
    "Q3 Sync" "2026-01-10T09:00:00Z" ["alice@acme.com"] none 30 true false true
    "2025-12-11T09:00:00Z" "2026-01-10T09:00:00Z"

def cexScoreLLM : GatheredContext :=
  { email_threads := [], calendar_events := [], crm_data := ⟨[], [], []⟩
    past_interactions := [], participant_profiles := []
    data_quality_score := 2, sources_accessed := ["made-up"] }

def cexGatherScore : Except Err GatheredContext :=
  ContextGathererAgent.gather ⟨false, false, false⟩ cexOracles (fun _ => .ok cexScoreLLM)
    "Q3 Sync" "2026-01-10T09:00:00Z" [] none 30 false false false "s" "u"

def cexTopicDict : Dict :=
  [("topic", "Budget Review"), ("context", "Q3 spend"), ("priority", "high")]

def emptyInsights : InsightExtractionResult :=
  ⟨[], [], [], [], [], [], "neutral", "healthy"⟩

def wConcern : ExtractedInsight :=
  { type := "concern", content := "Client is unhappy with pricing", source := "email"
    source_date := none, participants := ["alice@acme.com"], priority := "high"
    status := "open", confidence := 4/5 }

def wDraftRisk : Dict :=
  [("type", "risk"), ("title", "Client is unhappy with pricing"),
   ("description", "Client raised pricing concerns twice")]

/-! ### Helper lemmas -/

/-- A Python `for x in l: out.append(f(x))` loop is `map` modulo the accumulator. -/
theorem foldl_append_map {α β : Type} (f : α → β) (l : List α) (acc : List β) :
    l.foldl (fun a x => a ++ [f x]) acc = acc ++ l.map f := by
  induction l generalizing acc with
  | nil => simp
  | cons x xs ih => simp [ih]

/-- The first loop of `_merge_action_items` agrees with the spec's draft walk. -/
theorem foldl_draftStep_eq (items : List Dict) (acc : List ActionItem) (seen : List String) :
    items.foldl draftStep (acc, seen) =
      (acc ++ (specDraftWalk items seen).1, (specDraftWalk items seen).2) := by
  induction items generalizing acc seen with
  | nil => simp [specDraftWalk]
  | cons item rest ih =>
    simp only [List.foldl_cons, draftStep, specDraftWalk]
    by_cases h : actionKey (dictGetD item "description" "") ∈ seen
    · simp only [if_pos h]
      exact ih acc seen
    · simp only [if_neg h]
      rw [ih]
      simp

/-- The second loop of `_merge_action_items` agrees with the spec's insight walk. -/
theorem foldl_insightStep_fst (ins : List ExtractedInsight) (acc : List ActionItem)
    (seen : List String) :
    (ins.foldl insightStep (acc, seen)).1 = acc ++ specInsightWalk ins seen := by
  induction ins generalizing acc seen with
  | nil => simp [specInsightWalk]
  | cons insight rest ih =>
    simp only [List.foldl_cons, insightStep, specInsightWalk]
    by_cases h : actionKey insight.content ∈ seen
    · simp only [if_pos h]
      exact ih acc seen
    · simp only [if_neg h]
      rw [ih]
      simp

/-! ### Claim theorems -/

/-- C1: for every draft brief and insight bundle given to the assembler, the
merged action-item list has at most 10 entries, the merged talking-point list
at most 8, and the merged risks/opportunities list at most 6. -/
theorem merged_lists_obey_caps (brief_items : List Dict)
    (insight_items : List ExtractedInsight) (points : List Dict)
    (insights : InsightExtractionResult) (existing : List Dict)
    (concerns opportunities : List ExtractedInsight) :
    (_merge_action_items brief_items insight_items).length ≤ 10 ∧
    (_enhance_talking_points points insights).length ≤ 8 ∧
    (_merge_risks_opportunities existing concerns opportunities).length ≤ 6 := by
  refine ⟨?_, ?_, ?_⟩ <;>
    simp only [_merge_action_items, _enhance_talking_points,
      _merge_risks_opportunities] <;>
    exact List.length_take_le _ _

/-- C2: the action-item merge equals the spec's reference algorithm — dedup
walk over the draft items, then over the insight action items (content as
description, first participant as assignee, carrying status and source), then
keep the first 10 accumulated items, draft items first. -/
theorem merge_action_items_eq_spec (brief_items : List Dict)
    (insight_items : List ExtractedInsight) :
    _merge_action_items brief_items insight_items =
      specMergeActionItems brief_items insight_items := by
  simp only [_merge_action_items, specMergeActionItems]
  rw [foldl_draftStep_eq, List.nil_append, foldl_insightStep_fst]

/-- C3 (counterexample): the talking-points merge can output two entries with
equal topic-derived dedup keys — two draft points with the same topic both
survive, so the claimed key-uniqueness invariant is false. -/
theorem talking_points_duplicate_key_cex :
    _enhance_talking_points [cexTopicDict, cexTopicDict] emptyInsights =
      [dictToTalkingPoint cexTopicDict, dictToTalkingPoint cexTopicDict] ∧
    ¬ List.Pairwise (fun a b : TalkingPoint => specTalkingKey a.topic ≠ specTalkingKey b.topic)
        (_enhance_talking_points [cexTopicDict, cexTopicDict] emptyInsights) := by
  refine ⟨rfl, fun h => ?_⟩
  rw [show _enhance_talking_points [cexTopicDict, cexTopicDict] emptyInsights =
      [dictToTalkingPoint cexTopicDict, dictToTalkingPoint cexTopicDict] from rfl] at h
  exact (List.pairwise_cons.mp h).1 _ (List.mem_cons_self _ _) rfl

/-- C3 (amended): the talking-points merge performs no key-based
deduplication — draft points are kept positionally regardless of topic-key
collisions, and the output length depends only on the input lengths, never on
key equality among entries. -/
theorem enhance_talking_points_no_dedup (p q : Dict) (points : List Dict)
    (insights : InsightExtractionResult) :
    (_enhance_talking_points (p :: q :: points) insights)[0]? =
      some (dictToTalkingPoint p) ∧
    (_enhance_talking_points (p :: q :: points) insights)[1]? =
      some (dictToTalkingPoint q) ∧
    (_enhance_talking_points points insights).length =
      min (points.length + min insights.concerns.length 3 +
        min insights.opportunities.length 2) 8 := by
  refine ⟨?_, ?_, ?_⟩ <;>
    simp only [_enhance_talking_points, foldl_append_map, List.nil_append]
  · rw [List.getElem?_take_of_lt (by omega)]
    simp
  · rw [List.getElem?_take_of_lt (by omega)]
    simp
  · simp only [List.length_take, List.length_append, List.length_map]
    omega

/-- C4: the talking-point merge is exactly: all draft points in order, then at
most 3 concern-derived points (priority forced to high), then at most 2
opportunity-derived points (priority forced to medium), truncated to the
first 8 entries in that order. -/
theorem enhance_talking_points_characterization (points : List Dict)
    (insights : InsightExtractionResult) :
    _enhance_talking_points points insights =
      (points.map dictToTalkingPoint ++
       (insights.concerns.take 3).map concernTalkingPoint ++
       (insights.opportunities.take 2).map oppTalkingPoint).take 8 := by
  simp only [_enhance_talking_points, foldl_append_map, List.nil_append,
    List.append_assoc]

/-- C5: the risk/opportunity merge is exactly: the draft entries in order,
then one risk per concern insight (severity = its priority), then one
opportunity per opportunity insight (severity = its priority), truncated to
the first 6 entries with draft entries first. -/
theorem merge_risks_opportunities_characterization (existing : List Dict)
    (concerns opportunities : List ExtractedInsight) :
    _merge_risks_opportunities existing concerns opportunities =
      (existing.map dictToRiskOpportunity ++
       concerns.map concernRisk ++
       opportunities.map oppOpportunity).take 6 := by
  simp only [_merge_risks_opportunities, foldl_append_map, List.nil_append,
    List.append_assoc]

/-- C10: the risk/opportunity merge performs no deduplication — its length is
determined by the input lengths alone (up to the cap of 6), and two identical
concern insights yield two separate risk entries. -/
theorem merge_risks_opportunities_no_dedup (existing : List Dict)
    (concerns opportunities : List ExtractedInsight) (c : ExtractedInsight)
    (rest : List ExtractedInsight) :
    (_merge_risks_opportunities existing concerns opportunities).length =
      min (existing.length + concerns.length + opportunities.length) 6 ∧
    (_merge_risks_opportunities [] (c :: c :: rest) opportunities)[0]? =
      some (concernRisk c) ∧
    (_merge_risks_opportunities [] (c :: c :: rest) opportunities)[1]? =
      some (concernRisk c) := by
  refine ⟨?_, ?_, ?_⟩ <;>
    simp only [_merge_risks_opportunities, foldl_append_map, List.nil_append]
  · simp only [List.length_take, List.length_append, List.length_map]
    omega
  · rw [List.getElem?_take_of_lt (by omega)]
    simp
  · rw [List.getElem?_take_of_lt (by omega)]
    simp

/-- C6: the pipeline's `Brief` does not depend on the `time.time()` readings —
`generation_time` is computed and discarded, and the `Brief` model carries no
`generation_time_seconds` / `data_sources_used` field at all, so the claimed
fields cannot equal anything: the output is identical for any two clock
readings. -/
theorem generate_brief_ignores_wall_clock (mcp : McpConfig) (O : SourceOracles)
    (organize : OrganizeInput → Except Err GatheredContext)
    (extractChain : String → String → Except Err InsightExtractionResult)
    (generateChain : GenerateInput → Except Err GeneratedBrief)
    (env : RunEnv) (s1 e1 s2 e2 : ℚ)
    (meeting_id meeting_title meeting_date : String)
    (participants : List String) (meeting_description : Option String)
    (include_email include_crm include_calendar : Bool) (lookback_days : Nat) :
    BriefOrchestrator.generate_brief mcp O organize extractChain generateChain
      env s1 e1 meeting_id meeting_title meeting_date participants
      meeting_description include_email include_crm include_calendar lookback_days =
    BriefOrchestrator.generate_brief mcp O organize extractChain generateChain
      env s2 e2 meeting_id meeting_title meeting_date participants
      meeting_description include_email include_crm include_calendar lookback_days := rfl

/-- C7: `generate_brief` fails with an error exactly when one of its chained
steps — gather's organizing chain, insight extraction, brief synthesis, or
the `ParticipantProfile` validation run by the final `Brief` construction —
fails with that error, the first failing step deciding the outcome; hence an
extraction or synthesis failure is never swallowed into a partial `Brief`,
and a successful return carries a fully validated `Brief`. -/
theorem generate_brief_fails_atomically (mcp : McpConfig) (O : SourceOracles)
    (organize : OrganizeInput → Except Err GatheredContext)
    (extractChain : String → String → Except Err InsightExtractionResult)
    (generateChain : GenerateInput → Except Err GeneratedBrief)
    (env : RunEnv) (st et : ℚ) (mid title date : String)
    (participants : List String) (desc : Option String)
    (ie icrm ical : Bool) (lb : Nat) (e : Err) :
    BriefOrchestrator.generate_brief mcp O organize extractChain generateChain
      env st et mid title date participants desc ie icrm ical lb = .error e ↔
    (ContextGathererAgent.gather mcp O organize title date participants desc lb
        ie icrm ical env.sinceDate env.untilDate = .error e ∨
     ∃ ctx, ContextGathererAgent.gather mcp O organize title date participants desc lb
        ie icrm ical env.sinceDate env.untilDate = .ok ctx ∧
       (InsightExtractorAgent.extract extractChain ctx.email_threads
          (ctx.calendar_events.map eventToNote)
          (some ("Preparing for meeting: " ++ title)) = .error e ∨
        ∃ ins, InsightExtractorAgent.extract extractChain ctx.email_threads
          (ctx.calendar_events.map eventToNote)
          (some ("Preparing for meeting: " ++ title)) = .ok ins ∧
          (BriefGeneratorAgent.generate generateChain title date desc ctx = .error e ∨
           ∃ g, BriefGeneratorAgent.generate generateChain title date desc ctx = .ok g ∧
             validateParticipantProfiles g.participant_profiles = .error e))) := by
  unfold BriefOrchestrator.generate_brief
  cases hg : ContextGathererAgent.gather mcp O organize title date participants desc lb
      ie icrm ical env.sinceDate env.untilDate with
  | error e1 => simp
  | ok ctx =>
    cases hx : InsightExtractorAgent.extract extractChain ctx.email_threads
        (ctx.calendar_events.map eventToNote)
        (some ("Preparing for meeting: " ++ title)) with
    | error e1 => simp [hx]
    | ok ins =>
      cases hb : BriefGeneratorAgent.generate generateChain title date desc ctx with
      | error e1 => simp [hx, hb]
      | ok g =>
        cases hv : validateParticipantProfiles g.participant_profiles with
        | error e1 => simp [hx, hb, hv]
        | ok profiles => simp [hx, hb, hv]

/-- C8 (counterexample): in the claimed scenario — the calendar fetch raises
while the email fetch succeeds with non-empty data — `gather` does yield
`sources_accessed = ["email"]`, but the `calendar_events` of the returned
`GatheredContext` come from the organizing chain's output, which `gather`
does not clear: here the chain returns a context with a non-empty events
list, so the claimed `events == []` conclusion is false. -/
theorem gather_scenario_events_nonempty_cex :
    cexOracles.listEvents "2025-12-11T09:00:00Z" "2026-01-10T09:00:00Z" =
      .error "calendar fetch failed" ∧
    gather_email_context true cexOracles "2025-12-11T09:00:00Z" ["alice@acme.com"] =
      [cexThread] ∧
    cexGather = .ok { cexLLMContext with sources_accessed := ["email"] } ∧
    ({ cexLLMContext with sources_accessed := ["email"] } : GatheredContext).calendar_events =
      [cexEvent] ∧
    [cexEvent] ≠ ([] : List CalendarEvent) :=
  ⟨rfl, rfl, rfl, rfl, List.cons_ne_nil cexEvent []⟩

/-- C8 (amended): a calendar fetch error is isolated — the fetched calendar
data is empty, `gather` still completes whenever the organizing chain
succeeds, and in the scenario (email data non-empty, CRM disabled) the
returned `sources_accessed` is exactly `["email"]`; the `calendar_events` of
the returned context, however, are whatever the organizing chain emitted. -/
theorem gather_calendar_failure_isolated (mcp : McpConfig) (O : SourceOracles)
    (organize : OrganizeInput → Except Err GatheredContext) (c : GatheredContext)
    (title date : String) (participants : List String) (desc : Option String)
    (lb : Nat) (s u : String) (e : Err)
    (hcalEnabled : mcp.calendarEnabled = true)
    (hcal : O.listEvents s u = .error e)
    (hemail : gather_email_context mcp.emailEnabled O s participants ≠ [])
    (horg : ∀ inp, organize inp = .ok c) :
    gather_calendar_context mcp.calendarEnabled O s u participants = [] ∧
    ContextGathererAgent.gather mcp O organize title date participants desc lb
      true false true s u = .ok { c with sources_accessed := ["email"] } := by
  have hcalCtx : gather_calendar_context mcp.calendarEnabled O s u participants = [] := by
    simp [gather_calendar_context, hcalEnabled, hcal]
  refine ⟨hcalCtx, ?_⟩
  have hE : (gather_email_context mcp.emailEnabled O s participants).isEmpty = false :=
    List.isEmpty_eq_false.mpr hemail
  simp [ContextGathererAgent.gather, hcalCtx, hE, horg]

/-- C8 (witness): the amended theorem applied at the concrete scenario. -/
theorem gather_calendar_failure_isolated_witness :
    gather_calendar_context true cexOracles "2025-12-11T09:00:00Z"
      "2026-01-10T09:00:00Z" ["alice@acme.com"] = [] ∧
    ContextGathererAgent.gather ⟨true, true, false⟩ cexOracles
      (fun _ => .ok cexLLMContext) "Q3 Sync" "2026-01-10T09:00:00Z"
      ["alice@acme.com"] none 30 true false true
      "2025-12-11T09:00:00Z" "2026-01-10T09:00:00Z" =
      .ok { cexLLMContext with sources_accessed := ["email"] } :=
  gather_calendar_failure_isolated ⟨true, true, false⟩ cexOracles
    (fun _ => .ok cexLLMContext) cexLLMContext "Q3 Sync" "2026-01-10T09:00:00Z"
    ["alice@acme.com"] none 30 "2025-12-11T09:00:00Z" "2026-01-10T09:00:00Z"
    "calendar fetch failed" rfl rfl (by decide) (fun _ => rfl)

/-- C9 (counterexample): `gather` imposes no bounds on `data_quality_score`:
when the organizing chain returns a score of 2, the produced
`GatheredContext` carries a score outside [0, 1]. -/
theorem gather_quality_score_out_of_bounds_cex :
    cexGatherScore = .ok { cexScoreLLM with sources_accessed := [] } ∧
    ¬ (({ cexScoreLLM with sources_accessed := [] } : GatheredContext).data_quality_score ≤ 1) :=
  ⟨rfl, by decide⟩

/-- C9 (amended): `gather` passes the organizing chain's `data_quality_score`
through unchanged (no clamping into [0, 1]); `gather` itself is a pure
function of its inputs and the chain's response, so identical runs agree and
the score lies in [0, 1] exactly when the chain's output does. -/
theorem gather_quality_score_passthrough (mcp : McpConfig) (O : SourceOracles)
    (organize : OrganizeInput → Except Err GatheredContext) (c : GatheredContext)
    (title date : String) (participants : List String) (desc : Option String)
    (lb : Nat) (ie icrm ical : Bool) (s u : String)
    (horg : ∀ inp, organize inp = .ok c) :
    ∃ ctx, ContextGathererAgent.gather mcp O organize title date participants
      desc lb ie icrm ical s u = .ok ctx ∧
      ctx.data_quality_score = c.data_quality_score := by
  simp only [ContextGathererAgent.gather, horg]
  exact ⟨_, rfl, rfl⟩

/-- C9 (witness): the amended theorem applied at a concrete input. -/
theorem gather_quality_score_passthrough_witness :
    ∃ ctx, ContextGathererAgent.gather ⟨false, false, false⟩ cexOracles
      (fun _ => .ok cexScoreLLM) "Q3 Sync" "2026-01-10T09:00:00Z" [] none 30
      false false false "s" "u" = .ok ctx ∧
      ctx.data_quality_score = cexScoreLLM.data_quality_score :=
  gather_quality_score_passthrough ⟨false, false, false⟩ cexOracles
    (fun _ => .ok cexScoreLLM) cexScoreLLM "Q3 Sync" "2026-01-10T09:00:00Z"
    [] none 30 false false false "s" "u" (fun _ => rfl)
